import Mathlib

/-
Verification development for the g-gymnust repository.

The development embeds the Box space constructor and validator of
src/spaces/box.rs, the seeding helper of src/utils/seeding.rs and the
Space operations implemented for Box. The tensor module of the repository
is referenced as crate::tensor but its file is not part of the sources;
its primitives are the candle-style tensor API that box.rs calls
(full, gt, lt, clamp, flatten_all, min, max, to_dtype, elem_count) and
they are modelled here over exact extended-rational element values.
-/

namespace Gymnust

/-- Extended numeric value held by a tensor element: a finite rational or
one of the two floating-point infinities. The model tracks exact values
and ignores floating-point rounding, on which none of the verified
properties depend. NaN never occurs in the modelled code paths. -/
inductive Val where
  | negInf : Val
  | finite : ℚ → Val
  | posInf : Val
  deriving DecidableEq

/-- Strict order test on extended values, mirroring the float comparison
used by the tensor kernels. -/
def Val.blt : Val → Val → Bool
  | Val.negInf, Val.negInf => false
  | Val.negInf, _ => true
  | Val.finite _, Val.negInf => false
  | Val.finite a, Val.finite b => decide (a < b)
  | Val.finite _, Val.posInf => true
  | Val.posInf, _ => false

/-- Elementwise maximum of two extended values. -/
def Val.vmax (a b : Val) : Val := if Val.blt a b then b else a

/-- Elementwise minimum of two extended values. -/
def Val.vmin (a b : Val) : Val := if Val.blt b a then b else a

/-- Textual form of a single value, standing in for the Rust Display
rendering of a float scalar. -/
def Val.render : Val → String
  | Val.negInf => "-inf"
  | Val.posInf => "inf"
  | Val.finite q => toString q

/-- Element types of the tensor module, as in the candle-style API. -/
inductive DType where
  | U8 | U32 | I64 | BF16 | F16 | F32 | F64
  deriving DecidableEq

/-- Compute devices of the tensor module. -/
inductive Device where
  | Cpu : Device
  | Cuda : Nat → Device
  | Metal : Nat → Device
  deriving DecidableEq

/-- Modelled from the spec: a multi-dimensional numeric buffer, carrying
its shape (ordered dimensions) and its elements in flattened order. -/
structure Tensor where
  shape : List Nat
  data : List Val
  deriving DecidableEq

/-- Number of elements of a tensor. For a well-formed tensor the length of
the flattened data equals the product of the dimensions that the candle
API computes. -/
def Tensor.elem_count (t : Tensor) : Nat := t.data.length

/-- Modelled from the spec: materializing a scalar bound fills a full
buffer of the given shape with that scalar. -/
def Tensor.full (v : Val) (shape : List Nat) : Tensor :=
  Tensor.mk shape (List.replicate shape.prod v)

/-- Modelled from the spec: elementwise strictly-greater comparison of a
buffer against a scalar, yielding one and zero flags. -/
def Tensor.gt (t : Tensor) (v : Val) : Tensor :=
  Tensor.mk t.shape
    (t.data.map (fun x => if Val.blt v x then Val.finite 1 else Val.finite 0))

/-- Modelled from the spec: elementwise strictly-less comparison of a
buffer against a scalar, yielding one and zero flags. -/
def Tensor.lt (t : Tensor) (v : Val) : Tensor :=
  Tensor.mk t.shape
    (t.data.map (fun x => if Val.blt x v then Val.finite 1 else Val.finite 0))

/-- Element type conversion. The model stores exact values independent of
the storage width, so the numeric content is unchanged; every value the
embedded code converts (zero-or-one flags and bound values) is preserved
by the conversions the source performs. -/
def Tensor.to_dtype (t : Tensor) (d : DType) : Tensor := t

/-- The clamp primitive of the tensor module: every element is limited to
the closed range between the two arguments, as elementwise maximum with
the lower argument followed by elementwise minimum with the upper one.
This is the standard candle-style clamp that the call site in _broadcast
invokes with the two infinities as arguments. -/
def Tensor.clamp (t : Tensor) (lo hi : Val) : Tensor :=
  Tensor.mk t.shape (t.data.map (fun x => Val.vmin (Val.vmax x lo) hi))

/-- Modelled from the spec: flattening a buffer into a rank-one buffer of
all its elements. -/
def Tensor.flatten_all (t : Tensor) : Tensor :=
  Tensor.mk [t.data.length] t.data

/-- Full default textual rendering of a buffer, standing in for the
Display implementation of the tensor module. -/
def Tensor.render (t : Tensor) : String :=
  "Tensor(shape " ++ toString t.shape ++ ", values " ++
    String.intercalate ", " (t.data.map Val.render) ++ ")"

/-- Modulus of 64-bit machine arithmetic. -/
def M64 : Nat := 2 ^ 64

/-- State of the Xoshiro256Plus generator of the rand_xoshiro crate:
four 64-bit words. -/
structure Generator where
  s0 : Nat
  s1 : Nat
  s2 : Nat
  s3 : Nat
  deriving DecidableEq

/-- One step of the SplitMix64 generator used by seed_from_u64 to expand
a 64-bit seed into the full state. Returns the output and the advanced
SplitMix64 state. -/
def splitmix_next (state : Nat) : Nat × Nat :=
  let st := (state + 0x9e3779b97f4a7c15) % M64
  let z := st
  let z := ((z ^^^ (z >>> 30)) * 0xbf58476d1ce4e5b9) % M64
  let z := ((z ^^^ (z >>> 27)) * 0x94d049bb133111eb) % M64
  let z := z ^^^ (z >>> 31)
  (z, st)

/-- The four state words produced by running SplitMix64 from the seed. -/
def state_from_u64 (seed : Nat) : Generator :=
  let r0 := splitmix_next (seed % M64)
  let r1 := splitmix_next r0.2
  let r2 := splitmix_next r1.2
  let r3 := splitmix_next r2.2
  Generator.mk r0.1 r1.1 r2.1 r3.1

/-- Xoshiro256Plus seed_from_u64: expand the seed through SplitMix64; the
from_seed fallback reseeds from zero when the expanded state is all zero. -/
def seed_from_u64 (seed : Nat) : Generator :=
  let g := state_from_u64 seed
  if g = Generator.mk 0 0 0 0 then state_from_u64 0 else g

/-- Left rotation of a 64-bit word. -/
def rotl (x k : Nat) : Nat := ((x <<< k) % M64) ||| (x >>> (64 - k))

/-- One output step of Xoshiro256Plus: the output is the 64-bit sum of the
first and last state words, and the state advances by the xoshiro256
linear transformation. -/
def Generator.next_u64 (g : Generator) : Nat × Generator :=
  let result := (g.s0 + g.s3) % M64
  let t := (g.s1 <<< 17) % M64
  let s2a := g.s2 ^^^ g.s0
  let s3a := g.s3 ^^^ g.s1
  let s1a := g.s1 ^^^ s2a
  let s0a := g.s0 ^^^ s3a
  let s2b := s2a ^^^ t
  let s3b := rotl s3a 45
  (result, Generator.mk s0a s1a s2b s3b)

/-- The first n outputs of a generator. -/
def Generator.outputs : Generator → Nat → List Nat
  | _, 0 => []
  | g, Nat.succ n => (Generator.next_u64 g).1 :: Generator.outputs (Generator.next_u64 g).2 n

/-- rs_random of src/utils/seeding.rs: resolve the seed (the supplied
value verbatim, or OS entropy when absent — the entropy word drawn by
rand::random is passed here as an explicit argument), build the
Xoshiro256Plus generator from the resolved seed cast to 64 bits, and
return both. -/
def rs_random (seed : Option Nat) (entropy : Nat) : Generator × Nat :=
  let rs_seed : Nat :=
    match seed with
    | some s => s
    | none => entropy
  let rng : Generator := seed_from_u64 rs_seed
  (rng, rs_seed)

/-- A bound argument of Box::new: a scalar or a buffer, as the Bound
union matched in src/spaces/box.rs. -/
inductive Bound where
  | F64 : Val → Bound
  | Tensor : Tensor → Bound
  deriving DecidableEq

/-- A seed argument of Box::new: an explicit seed value or a pre-built
generator, from src/utils/seeding.rs. -/
inductive Seed where
  | USize : Nat → Seed
  | Generator : Generator → Seed
  deriving DecidableEq

/-- The fatal construction failures of Box::new. -/
inductive BoxError where
  | lowMustBeTensor : BoxError
  | highMustBeTensor : BoxError
  | shapeMismatch : BoxError
  deriving DecidableEq

/-- The panic message attached to each fatal construction failure. -/
def BoxError.message : BoxError → String
  | BoxError.lowMustBeTensor => "Low must be a tensor"
  | BoxError.highMustBeTensor => "High must be a tensor"
  | BoxError.shapeMismatch => "Low and high must have the same shape"

/-- _short_repr of src/spaces/box.rs: the empty buffer renders as a pair
of brackets, a buffer whose minimum equals its maximum renders as that
single value bracketed, any other buffer renders in its full default
textual form. -/
def _short_repr (arr : Tensor) : String :=
  let arr_size := Tensor.elem_count arr
  if arr_size = 0 then "[]"
  else
    let flattened_arr : Tensor := Tensor.to_dtype (Tensor.flatten_all arr) DType.F32
    match flattened_arr.data with
    | [] => "[]"
    | x :: xs =>
      let mn := xs.foldl Val.vmin x
      let mx := xs.foldl Val.vmax x
      if mn = mx then "[" ++ Val.render mn ++ "]"
      else Tensor.render arr

/-- The Box space struct of src/spaces/box.rs. -/
structure Box where
  shape : Option (List Nat)
  dtype : DType
  rs_random : Generator
  device : Option Device
  low : Tensor
  high : Tensor
  low_repr : String
  high_repr : String
  bounded_below : Tensor
  bounded_above : Tensor
  deriving DecidableEq

/-- _broadcast of src/spaces/box.rs: clamp the buffer with the two
infinities as the range arguments. -/
def _broadcast (value : Tensor) : Tensor :=
  Tensor.clamp value Val.negInf Val.posInf

/-- Materialization of a bound argument at the resolved shape: a scalar
is expanded by Tensor::full, a buffer is taken as supplied. This is the
match expression producing _low and _high in Box::new. -/
def materialize (b : Bound) (shape : List Nat) : Tensor :=
  match b with
  | Bound.F64 v => Tensor.full v shape
  | Bound.Tensor t => t

/-- Shape resolution of Box::new: an explicit shape is used directly;
otherwise both bounds must be buffers of identical shape, which is then
the resolved shape, and the two fatal failures arise exactly as in the
source. -/
def resolveShape (low high : Bound) (shape : Option (List Nat)) :
    Except BoxError (List Nat) :=
  match shape with
  | some s => Except.ok s
  | none =>
    match low with
    | Bound.F64 _ => Except.error BoxError.lowMustBeTensor
    | Bound.Tensor tlow =>
      match high with
      | Bound.F64 _ => Except.error BoxError.highMustBeTensor
      | Bound.Tensor thigh =>
        if tlow.shape = thigh.shape then Except.ok tlow.shape
        else Except.error BoxError.shapeMismatch

/-- The device match at the top of Box::new: an absent device defaults
to Cpu. -/
def resolveDevice (device : Option Device) : Device :=
  match device with
  | some d => d
  | none => Device.Cpu

/-- The seed match of Box::new: an explicit seed value derives a fresh
generator through rs_random, a pre-built generator is adopted directly,
and an absent seed derives a generator from OS entropy (the entropy word
is passed explicitly). -/
def resolveGenerator (seed : Option Seed) (entropy : Nat) : Generator :=
  match seed with
  | some (Seed.USize s) => (rs_random (some s) entropy).1
  | some (Seed.Generator g) => g
  | none => (rs_random none entropy).1

/-- Box::new of src/spaces/box.rs. The device defaults to Cpu, the shape
is resolved, the bounds are materialized, the boundedness flags are
computed from the pre-clamp buffers, the stored buffers pass through
_broadcast, the generator comes from the seed argument, and the
summaries are rendered from the pre-clamp buffers. Panics are modelled
as errors. -/
def Box.new (low high : Bound) (shape : Option (List Nat)) (dtype : DType)
    (seed : Option Seed) (device : Option Device) (entropy : Nat) :
    Except BoxError Box :=
  let deviceR : Device := resolveDevice device
  match resolveShape low high shape with
  | Except.error e => Except.error e
  | Except.ok shapeR =>
    let _low : Tensor := materialize low shapeR
    let bounded_below : Tensor := Tensor.to_dtype (Tensor.gt _low Val.negInf) dtype
    let _high : Tensor := materialize high shapeR
    let bounded_above : Tensor := Tensor.to_dtype (Tensor.lt _high Val.posInf) dtype
    let lowS : Tensor := _broadcast _low
    let highS : Tensor := _broadcast _high
    let _rs_random : Generator := resolveGenerator seed entropy
    let low_repr : String := _short_repr _low
    let high_repr : String := _short_repr _high
    Except.ok (Box.mk (some shapeR) dtype _rs_random (some deviceR) lowS highS
      low_repr high_repr bounded_below bounded_above)

/-- Box always reports itself flattenable. -/
def Box.is_flattenable (b : Box) : Bool := true

/-- Box::sample is the todo macro, which panics unconditionally; the
panic is modelled as none. -/
def Box.sample {Mask : Type} (b : Box) (mask : Option Mask) : Option Tensor :=
  none

/-- Box::seed replaces the generator with a fresh one from rs_random and
returns the resolved seed in a one-element list. -/
def Box.seed (b : Box) (seed : Option Nat) (entropy : Nat) : Box × List Nat :=
  let r := Gymnust.rs_random seed entropy
  ({ b with rs_random := r.1 }, [r.2])

/-- Box::contains returns true for every argument; it is a placeholder
that yields a value rather than failing. -/
def Box.contains {T : Type} (b : Box) (x : T) : Option Bool :=
  some true

/-- Whether a bound argument is compatible with a resolved shape: a
scalar always is, a buffer is when it already has that shape. -/
def Bound.shapeCompat (b : Bound) (s : List Nat) : Prop :=
  match b with
  | Bound.F64 _ => True
  | Bound.Tensor t => t.shape = s

/-- A fixed generator used as a concrete seed argument in witnesses. -/
def g0 : Generator := Generator.mk 1 2 3 4

/-- A fixed concrete Box used when refuting a universally quantified
claim over boxes. -/
def boxC : Box :=
  Box.mk (some [1]) DType.F32 g0 (some Device.Cpu)
    (Tensor.mk [1] [Val.finite 0]) (Tensor.mk [1] [Val.finite 1])
    "[0]" "[1]"
    (Tensor.mk [1] [Val.finite 1]) (Tensor.mk [1] [Val.finite 1])

lemma Val.blt_irrefl (a : Val) : Val.blt a a = false := by
  cases a <;> simp [Val.blt]

lemma Val.blt_asymm {a b : Val} (h : Val.blt a b = true) : Val.blt b a = false := by
  cases a <;> cases b <;> simp_all [Val.blt] <;> linarith

lemma Val.blt_antisymm {a b : Val} (hab : Val.blt a b = false)
    (hba : Val.blt b a = false) : a = b := by
  cases a <;> cases b <;> simp_all [Val.blt, not_lt] <;> linarith

lemma Val.blt_nlt_trans {a b c : Val} (hba : Val.blt b a = false)
    (hcb : Val.blt c b = false) : Val.blt c a = false := by
  cases a <;> cases b <;> cases c <;> simp_all [Val.blt, not_lt] <;> linarith

lemma Val.clamp_inf_id (x : Val) :
    Val.vmin (Val.vmax x Val.negInf) Val.posInf = x := by
  cases x <;> simp [Val.vmin, Val.vmax, Val.blt]

lemma _broadcast_id (t : Tensor) : _broadcast t = t := by
  cases t with
  | mk sh d => simp [_broadcast, Tensor.clamp, Val.clamp_inf_id]

lemma Val.vmin_le_left (a b : Val) : Val.blt a (Val.vmin a b) = false := by
  unfold Val.vmin
  by_cases h : Val.blt b a = true
  · simp [h, Val.blt_asymm h]
  · simp [h, Val.blt_irrefl]

lemma Val.vmin_le_right (a b : Val) : Val.blt b (Val.vmin a b) = false := by
  unfold Val.vmin
  by_cases h : Val.blt b a = true
  · simp [h, Val.blt_irrefl]
  · simp only [Bool.not_eq_true] at h
    simp [h]

lemma Val.vmax_ge_left (a b : Val) : Val.blt (Val.vmax a b) a = false := by
  unfold Val.vmax
  by_cases h : Val.blt a b = true
  · simp [h, Val.blt_asymm h]
  · simp [h, Val.blt_irrefl]

lemma Val.vmax_ge_right (a b : Val) : Val.blt (Val.vmax a b) b = false := by
  unfold Val.vmax
  by_cases h : Val.blt a b = true
  · simp [h, Val.blt_irrefl]
  · simp only [Bool.not_eq_true] at h
    simp [h]

lemma foldl_vmin_le (xs : List Val) : ∀ (x y : Val), y ∈ x :: xs →
    Val.blt y (xs.foldl Val.vmin x) = false := by
  induction xs with
  | nil =>
    intro x y hy
    simp only [List.mem_singleton] at hy
    subst hy
    exact Val.blt_irrefl y
  | cons z zs ih =>
    intro x y hy
    have hfold : Val.blt (Val.vmin x z) (zs.foldl Val.vmin (Val.vmin x z)) = false :=
      ih (Val.vmin x z) (Val.vmin x z) (by simp)
    rcases List.mem_cons.mp hy with h1 | h2
    · subst h1
      exact Val.blt_nlt_trans hfold (Val.vmin_le_left y z)
    · rcases List.mem_cons.mp h2 with h3 | h4
      · subst h3
        exact Val.blt_nlt_trans hfold (Val.vmin_le_right x y)
      · exact ih (Val.vmin x z) y (List.mem_cons_of_mem _ h4)

lemma foldl_vmax_ge (xs : List Val) : ∀ (x y : Val), y ∈ x :: xs →
    Val.blt (xs.foldl Val.vmax x) y = false := by
  induction xs with
  | nil =>
    intro x y hy
    simp only [List.mem_singleton] at hy
    subst hy
    exact Val.blt_irrefl y
  | cons z zs ih =>
    intro x y hy
    have hfold : Val.blt (zs.foldl Val.vmax (Val.vmax x z)) (Val.vmax x z) = false :=
      ih (Val.vmax x z) (Val.vmax x z) (by simp)
    rcases List.mem_cons.mp hy with h1 | h2
    · subst h1
      exact Val.blt_nlt_trans (Val.vmax_ge_left y z) hfold
    · rcases List.mem_cons.mp h2 with h3 | h4
      · subst h3
        exact Val.blt_nlt_trans (Val.vmax_ge_right x y) hfold
      · exact ih (Val.vmax x z) y (List.mem_cons_of_mem _ h4)

lemma foldl_vmin_const (xs : List Val) : ∀ (x : Val), (∀ y ∈ xs, y = x) →
    xs.foldl Val.vmin x = x := by
  induction xs with
  | nil => intro x _; rfl
  | cons z zs ih =>
    intro x h
    have hz : z = x := h z (by simp)
    subst hz
    have : Val.vmin z z = z := by simp [Val.vmin, Val.blt_irrefl]
    rw [List.foldl_cons, this]
    exact ih z (fun y hy => h y (List.mem_cons_of_mem _ hy))

lemma foldl_vmax_const (xs : List Val) : ∀ (x : Val), (∀ y ∈ xs, y = x) →
    xs.foldl Val.vmax x = x := by
  induction xs with
  | nil => intro x _; rfl
  | cons z zs ih =>
    intro x h
    have hz : z = x := h z (by simp)
    subst hz
    have : Val.vmax z z = z := by simp [Val.vmax, Val.blt_irrefl]
    rw [List.foldl_cons, this]
    exact ih z (fun y hy => h y (List.mem_cons_of_mem _ hy))

lemma getD_map_lt {α β : Type} (f : α → β) (l : List α) (i : Nat)
    (h : i < l.length) (d : α) (e : β) :
    (l.map f).getD i e = f (l.getD i d) := by
  induction l generalizing i with
  | nil => simp at h
  | cons a as ih =>
    cases i with
    | zero => rfl
    | succ j =>
      simp only [List.map_cons, List.getD_cons_succ]
      exact ih j (by simpa using h)

lemma box_new_err (low high : Bound) (shape : Option (List Nat)) (dtype : DType)
    (seed : Option Seed) (device : Option Device) (entropy : Nat) (e : BoxError)
    (hr : resolveShape low high shape = Except.error e) :
    Box.new low high shape dtype seed device entropy = Except.error e := by
  unfold Box.new
  rw [hr]

lemma box_new_ok (low high : Bound) (shape : Option (List Nat)) (dtype : DType)
    (seed : Option Seed) (device : Option Device) (entropy : Nat) (s : List Nat)
    (hr : resolveShape low high shape = Except.ok s) :
    Box.new low high shape dtype seed device entropy =
      Except.ok (Box.mk (some s) dtype (resolveGenerator seed entropy)
        (some (resolveDevice device))
        (_broadcast (materialize low s)) (_broadcast (materialize high s))
        (_short_repr (materialize low s)) (_short_repr (materialize high s))
        (Tensor.to_dtype (Tensor.gt (materialize low s) Val.negInf) dtype)
        (Tensor.to_dtype (Tensor.lt (materialize high s) Val.posInf) dtype)) := by
  unfold Box.new
  rw [hr]

/-- C9: for every buffer, the summary formatter returns a bare bracket
pair when the buffer has zero elements; when all elements are equal it
returns that single value bracketed (the minimum equals the maximum
exactly in this case); and when two elements differ it returns the
full default textual rendering of the buffer. -/
theorem short_repr_cases (arr : Tensor) :
    (Tensor.elem_count arr = 0 → _short_repr arr = "[]")
    ∧ (∀ v : Val, arr.data ≠ [] → (∀ x, x ∈ arr.data → x = v) →
        _short_repr arr = "[" ++ Val.render v ++ "]")
    ∧ ((∃ x, x ∈ arr.data ∧ ∃ y, y ∈ arr.data ∧ x ≠ y) →
        _short_repr arr = Tensor.render arr) := by
  obtain ⟨sh, d⟩ := arr
  refine ⟨?_, ?_, ?_⟩
  · intro h
    simp only [Tensor.elem_count] at h
    have hd : d = [] := List.length_eq_zero.mp h
    subst hd
    rfl
  · intro v hne hall
    cases d with
    | nil => exact absurd rfl hne
    | cons x xs =>
      have hx : x = v := hall x (by simp)
      subst hx
      have hxs : ∀ y ∈ xs, y = x := fun y hy => hall y (by simp [hy])
      have hmn : xs.foldl Val.vmin x = x := foldl_vmin_const xs x hxs
      have hmx : xs.foldl Val.vmax x = x := foldl_vmax_const xs x hxs
      simp [_short_repr, Tensor.elem_count, Tensor.flatten_all, Tensor.to_dtype,
        hmn, hmx]
  · rintro ⟨a, ha, b, hb, hab⟩
    cases d with
    | nil => simp at ha
    | cons x xs =>
      have hmnmx : xs.foldl Val.vmin x ≠ xs.foldl Val.vmax x := by
        intro heq
        have hall : ∀ y ∈ x :: xs, y = xs.foldl Val.vmin x := by
          intro y hy
          have hle : Val.blt y (xs.foldl Val.vmin x) = false :=
            foldl_vmin_le xs x y hy
          have hge : Val.blt (xs.foldl Val.vmin x) y = false := by
            rw [heq]
            exact foldl_vmax_ge xs x y hy
          exact (Val.blt_antisymm hge hle).symm
        exact hab ((hall a ha).trans (hall b hb).symm)
      simp [_short_repr, Tensor.elem_count, Tensor.flatten_all, Tensor.to_dtype,
        hmnmx]

/-- C9 witness: a uniform three-element buffer holding minus one renders
as that single value bracketed. -/
theorem short_repr_cases_witness :
    ((Tensor.mk [3] [Val.finite (-1), Val.finite (-1), Val.finite (-1)]).data ≠ []
      ∧ (∀ x, x ∈ (Tensor.mk [3] [Val.finite (-1), Val.finite (-1), Val.finite (-1)]).data →
          x = Val.finite (-1)))
    ∧ _short_repr (Tensor.mk [3] [Val.finite (-1), Val.finite (-1), Val.finite (-1)]) =
        "[" ++ Val.render (Val.finite (-1)) ++ "]" :=
  ⟨⟨by decide, by decide⟩,
    (short_repr_cases (Tensor.mk [3] [Val.finite (-1), Val.finite (-1), Val.finite (-1)])).2.1
      (Val.finite (-1)) (by decide) (by decide)⟩

/-- C1: in every successful construction, the boundedness flag buffers
are computed from the materialized pre-clamp bound buffers: the low
flag at a position is one exactly when the original low value there is
strictly greater than negative infinity, and the high flag is one
exactly when the original high value is strictly less than positive
infinity, independent of the clamped buffers stored afterwards. -/
theorem box_new_captures_boundedness_preclamp (low high : Bound)
    (shape : Option (List Nat)) (dtype : DType) (seed : Option Seed)
    (device : Option Device) (entropy : Nat) (b : Box)
    (hb : Box.new low high shape dtype seed device entropy = Except.ok b) :
    ∃ s, resolveShape low high shape = Except.ok s ∧ b.shape = some s ∧
      b.bounded_below.data = (materialize low s).data.map
        (fun x => if Val.blt Val.negInf x then Val.finite 1 else Val.finite 0) ∧
      b.bounded_above.data = (materialize high s).data.map
        (fun x => if Val.blt x Val.posInf then Val.finite 1 else Val.finite 0) ∧
      (∀ i, i < (materialize low s).data.length →
        (b.bounded_below.data.getD i (Val.finite 0) = Val.finite 1 ↔
          Val.blt Val.negInf ((materialize low s).data.getD i Val.negInf) = true)) ∧
      (∀ i, i < (materialize high s).data.length →
        (b.bounded_above.data.getD i (Val.finite 0) = Val.finite 1 ↔
          Val.blt ((materialize high s).data.getD i Val.posInf) Val.posInf = true)) := by
  cases hr : resolveShape low high shape with
  | error e =>
    rw [box_new_err low high shape dtype seed device entropy e hr] at hb
    exact absurd hb (by simp)
  | ok s =>
    rw [box_new_ok low high shape dtype seed device entropy s hr] at hb
    have hb2 := Except.ok.inj hb
    subst hb2
    refine ⟨s, rfl, rfl, rfl, rfl, ?_, ?_⟩
    · intro i hi
      show ((materialize low s).data.map
        (fun x => if Val.blt Val.negInf x then Val.finite 1 else Val.finite 0)).getD
          i (Val.finite 0) = Val.finite 1 ↔ _
      rw [getD_map_lt _ _ i hi Val.negInf]
      by_cases hbl : Val.blt Val.negInf ((materialize low s).data.getD i Val.negInf) = true
      · simp [hbl]
      · simp only [Bool.not_eq_true] at hbl
        simp [hbl]
    · intro i hi
      show ((materialize high s).data.map
        (fun x => if Val.blt x Val.posInf then Val.finite 1 else Val.finite 0)).getD
          i (Val.finite 0) = Val.finite 1 ↔ _
      rw [getD_map_lt _ _ i hi Val.posInf]
      by_cases hbl : Val.blt ((materialize high s).data.getD i Val.posInf) Val.posInf = true
      · simp [hbl]
      · simp only [Bool.not_eq_true] at hbl
        simp [hbl]

/-- C1 witness: a two-element low buffer holding negative infinity and
zero yields boundedness flags zero and one, through the theorem applied
at this concrete construction. -/
theorem box_new_captures_boundedness_preclamp_witness :
    ∃ b, Box.new (Bound.Tensor (Tensor.mk [2] [Val.negInf, Val.finite 0]))
        (Bound.Tensor (Tensor.mk [2] [Val.finite 5, Val.posInf])) none DType.F32
        (some (Seed.Generator g0)) none 0 = Except.ok b ∧
      (∃ s, resolveShape (Bound.Tensor (Tensor.mk [2] [Val.negInf, Val.finite 0]))
          (Bound.Tensor (Tensor.mk [2] [Val.finite 5, Val.posInf])) none = Except.ok s ∧
        b.shape = some s ∧
        b.bounded_below.data =
          (materialize (Bound.Tensor (Tensor.mk [2] [Val.negInf, Val.finite 0])) s).data.map
            (fun x => if Val.blt Val.negInf x then Val.finite 1 else Val.finite 0) ∧
        b.bounded_above.data =
          (materialize (Bound.Tensor (Tensor.mk [2] [Val.finite 5, Val.posInf])) s).data.map
            (fun x => if Val.blt x Val.posInf then Val.finite 1 else Val.finite 0) ∧
        (∀ i, i < (materialize (Bound.Tensor (Tensor.mk [2] [Val.negInf, Val.finite 0])) s).data.length →
          (b.bounded_below.data.getD i (Val.finite 0) = Val.finite 1 ↔
            Val.blt Val.negInf
              ((materialize (Bound.Tensor (Tensor.mk [2] [Val.negInf, Val.finite 0])) s).data.getD
                i Val.negInf) = true)) ∧
        (∀ i, i < (materialize (Bound.Tensor (Tensor.mk [2] [Val.finite 5, Val.posInf])) s).data.length →
          (b.bounded_above.data.getD i (Val.finite 0) = Val.finite 1 ↔
            Val.blt
              ((materialize (Bound.Tensor (Tensor.mk [2] [Val.finite 5, Val.posInf])) s).data.getD
                i Val.posInf) Val.posInf = true))) :=
  ⟨_, rfl, box_new_captures_boundedness_preclamp _ _ _ _ _ _ _ _ rfl⟩

/-- C2: evaluation of the embedded Box::new at a low bound containing
negative infinity shows that the stored low buffer still contains the
infinity. _broadcast clamps with the two infinities as range arguments,
which changes nothing, so infinities are not replaced by the
representable minimum and maximum, contrary to the comment in the
source and to the specification. -/
theorem box_new_stores_infinite_bound :
    ∃ b, Box.new (Bound.Tensor (Tensor.mk [1] [Val.negInf]))
        (Bound.Tensor (Tensor.mk [1] [Val.finite 0])) none DType.F32
        (some (Seed.Generator g0)) none 0 = Except.ok b ∧
      b.low.data = [Val.negInf] ∧ b.high.data = [Val.finite 0] ∧
      (∃ x, x ∈ b.low.data ∧ x = Val.negInf) :=
  ⟨_, rfl, rfl, rfl, ⟨Val.negInf, by decide, rfl⟩⟩

/-- C3: Box::new fails in exactly the two shape-resolution situations,
both only when no explicit shape is supplied: a scalar low or high
without an explicit shape gives the must-be-a-buffer failure with its
message, mismatched buffer shapes give the same-shape failure with its
message, and every other argument combination constructs successfully. -/
theorem box_new_error_paths :
    (∀ (v : Val) (high : Bound) (dtype : DType) (seed : Option Seed)
        (device : Option Device) (entropy : Nat),
      Box.new (Bound.F64 v) high none dtype seed device entropy =
        Except.error BoxError.lowMustBeTensor)
    ∧ (∀ (t : Tensor) (v : Val) (dtype : DType) (seed : Option Seed)
        (device : Option Device) (entropy : Nat),
      Box.new (Bound.Tensor t) (Bound.F64 v) none dtype seed device entropy =
        Except.error BoxError.highMustBeTensor)
    ∧ (∀ (tl th : Tensor) (dtype : DType) (seed : Option Seed)
        (device : Option Device) (entropy : Nat), tl.shape ≠ th.shape →
      Box.new (Bound.Tensor tl) (Bound.Tensor th) none dtype seed device entropy =
        Except.error BoxError.shapeMismatch)
    ∧ (∀ (tl th : Tensor) (dtype : DType) (seed : Option Seed)
        (device : Option Device) (entropy : Nat), tl.shape = th.shape →
      ∃ b, Box.new (Bound.Tensor tl) (Bound.Tensor th) none dtype seed device entropy =
        Except.ok b)
    ∧ (∀ (low high : Bound) (s : List Nat) (dtype : DType) (seed : Option Seed)
        (device : Option Device) (entropy : Nat),
      ∃ b, Box.new low high (some s) dtype seed device entropy = Except.ok b)
    ∧ BoxError.message BoxError.lowMustBeTensor = "Low must be a tensor"
    ∧ BoxError.message BoxError.highMustBeTensor = "High must be a tensor"
    ∧ BoxError.message BoxError.shapeMismatch = "Low and high must have the same shape" := by
  refine ⟨?_, ?_, ?_, ?_, ?_, rfl, rfl, rfl⟩
  · intro v high dtype seed device entropy
    exact box_new_err _ _ _ _ _ _ _ _ rfl
  · intro t v dtype seed device entropy
    exact box_new_err _ _ _ _ _ _ _ _ rfl
  · intro tl th dtype seed device entropy hne
    exact box_new_err _ _ _ _ _ _ _ _ (by simp [resolveShape, hne])
  · intro tl th dtype seed device entropy heq
    exact ⟨_, box_new_ok _ _ _ _ _ _ _ tl.shape (by simp [resolveShape, heq])⟩
  · intro low high s dtype seed device entropy
    exact ⟨_, box_new_ok _ _ _ _ _ _ _ s rfl⟩

/-- C3 witness: buffers of shape one and shape two without an explicit
shape abort with the same-shape failure, through the theorem applied at
this concrete input. -/
theorem box_new_error_paths_witness :
    (Tensor.mk [1] [Val.finite 0]).shape ≠ (Tensor.mk [2] [Val.finite 0, Val.finite 0]).shape
    ∧ Box.new (Bound.Tensor (Tensor.mk [1] [Val.finite 0]))
        (Bound.Tensor (Tensor.mk [2] [Val.finite 0, Val.finite 0])) none DType.F32
        none none 0 = Except.error BoxError.shapeMismatch :=
  ⟨by decide,
    box_new_error_paths.2.2.1 (Tensor.mk [1] [Val.finite 0])
      (Tensor.mk [2] [Val.finite 0, Val.finite 0]) DType.F32 none none 0 (by decide)⟩

/-- C4 counterexample: with an explicit shape of two together with
buffer bounds of shape three, construction succeeds yet the stored low
buffer keeps shape three, differing from the resolved shape field, so
the claimed invariant fails. -/
theorem box_shape_invariant_counterexample :
    ∃ b, Box.new (Bound.Tensor (Tensor.mk [3] [Val.finite 0, Val.finite 0, Val.finite 0]))
        (Bound.Tensor (Tensor.mk [3] [Val.finite 1, Val.finite 1, Val.finite 1]))
        (some [2]) DType.F32 (some (Seed.Generator g0)) none 0 = Except.ok b ∧
      b.shape = some [2] ∧ b.low.shape = [3] ∧ b.high.shape = [3] ∧
      b.low.shape ≠ [2] :=
  ⟨_, rfl, rfl, rfl, rfl, by decide⟩

/-- C4 amended: the stored low shape, stored high shape and resolved
shape field coincide in every successful construction in which each
buffer-valued bound already has the resolved shape; scalar bounds always
qualify, and when the shape argument is absent the resolution itself
forces the buffer shapes to qualify. With an explicit shape and a
buffer bound of a different shape the invariant does not hold. -/
theorem box_shape_invariant_amended (low high : Bound)
    (shape : Option (List Nat)) (dtype : DType) (seed : Option Seed)
    (device : Option Device) (entropy : Nat) (b : Box)
    (hb : Box.new low high shape dtype seed device entropy = Except.ok b)
    (s : List Nat) (hr : resolveShape low high shape = Except.ok s)
    (hl : Bound.shapeCompat low s) (hh : Bound.shapeCompat high s) :
    b.shape = some s ∧ b.low.shape = s ∧ b.high.shape = s := by
  rw [box_new_ok low high shape dtype seed device entropy s hr] at hb
  have hb2 := Except.ok.inj hb
  subst hb2
  refine ⟨rfl, ?_, ?_⟩
  · cases low with
    | F64 v => simp [materialize, Tensor.full, _broadcast, Tensor.clamp]
    | Tensor t =>
      simp only [materialize, _broadcast, Tensor.clamp]
      exact hl
  · cases high with
    | F64 v => simp [materialize, Tensor.full, _broadcast, Tensor.clamp]
    | Tensor t =>
      simp only [materialize, _broadcast, Tensor.clamp]
      exact hh

/-- C4 witness: scalar bounds with the explicit shape of two satisfy the
amended invariant, through the theorem applied at this concrete
construction. -/
theorem box_shape_invariant_amended_witness :
    ∃ b, Box.new (Bound.F64 (Val.finite 0)) (Bound.F64 (Val.finite 1)) (some [2])
        DType.F32 (some (Seed.Generator g0)) none 0 = Except.ok b ∧
      (b.shape = some [2] ∧ b.low.shape = [2] ∧ b.high.shape = [2]) := by
  refine ⟨_, rfl, ?_⟩
  exact box_shape_invariant_amended (Bound.F64 (Val.finite 0))
    (Bound.F64 (Val.finite 1)) (some [2]) DType.F32 (some (Seed.Generator g0))
    none 0 _ rfl [2] rfl trivial trivial

/-- C5: with an explicit shape and scalar bounds, both stored buffers
have that shape and every element is the respective scalar; with buffer
bounds of a shared shape and no explicit shape, the resolved shape is
the shared shape and the buffers are stored exactly as supplied. -/
theorem box_new_shape_and_materialization :
    (∀ (s : List Nat) (vl vh : Val) (dtype : DType) (seed : Option Seed)
        (device : Option Device) (entropy : Nat),
      ∃ b, Box.new (Bound.F64 vl) (Bound.F64 vh) (some s) dtype seed device entropy =
          Except.ok b ∧
        b.shape = some s ∧ b.low.shape = s ∧ b.high.shape = s ∧
        b.low.data = List.replicate s.prod vl ∧
        b.high.data = List.replicate s.prod vh)
    ∧ (∀ (tl th : Tensor) (dtype : DType) (seed : Option Seed)
        (device : Option Device) (entropy : Nat), tl.shape = th.shape →
      ∃ b, Box.new (Bound.Tensor tl) (Bound.Tensor th) none dtype seed device entropy =
          Except.ok b ∧
        b.shape = some tl.shape ∧ b.low = tl ∧ b.high = th) := by
  constructor
  · intro s vl vh dtype seed device entropy
    refine ⟨_, box_new_ok _ _ _ _ _ _ _ s rfl, rfl, ?_, ?_, ?_, ?_⟩ <;>
      simp [materialize, _broadcast_id, Tensor.full]
  · intro tl th dtype seed device entropy heq
    refine ⟨_, box_new_ok _ _ _ _ _ _ _ tl.shape (by simp [resolveShape, heq]),
      rfl, ?_, ?_⟩ <;> simp [materialize, _broadcast_id]

/-- C5 witness: two equal-shape buffers without an explicit shape are
stored as supplied with their shared shape as the resolved shape,
through the theorem applied at this concrete input. -/
theorem box_new_shape_and_materialization_witness :
    (Tensor.mk [2] [Val.finite 0, Val.finite 1]).shape =
      (Tensor.mk [2] [Val.finite 2, Val.finite 3]).shape
    ∧ ∃ b, Box.new (Bound.Tensor (Tensor.mk [2] [Val.finite 0, Val.finite 1]))
        (Bound.Tensor (Tensor.mk [2] [Val.finite 2, Val.finite 3])) none DType.F32
        (some (Seed.Generator g0)) none 0 = Except.ok b ∧
      b.shape = some (Tensor.mk [2] [Val.finite 0, Val.finite 1]).shape ∧
      b.low = Tensor.mk [2] [Val.finite 0, Val.finite 1] ∧
      b.high = Tensor.mk [2] [Val.finite 2, Val.finite 3] :=
  ⟨rfl,
    box_new_shape_and_materialization.2 (Tensor.mk [2] [Val.finite 0, Val.finite 1])
      (Tensor.mk [2] [Val.finite 2, Val.finite 3]) DType.F32
      (some (Seed.Generator g0)) none 0 rfl⟩

/-- C6 counterexample: contains on a concrete Box returns the value true
instead of failing, refuting the claim that invoking it fails loudly
rather than returning a value. -/
theorem box_contains_returns_value_counterexample :
    Box.contains boxC (0 : Nat) = some true ∧ Box.contains boxC (0 : Nat) ≠ none :=
  ⟨rfl, by simp [Box.contains]⟩

/-- C6 amended: for every Box, sample panics for every mask, while
contains silently returns true for every argument instead of failing. -/
theorem box_sample_panics_contains_returns_true :
    ∀ (b : Box) (Mask : Type) (mask : Option Mask) (T : Type) (x : T),
      Box.sample b mask = none ∧ Box.contains b x = some true :=
  fun b Mask mask T x => ⟨rfl, rfl⟩

/-- C7: rs_random with an explicit seed returns that seed verbatim and a
generator fully determined by it: the result does not depend on the
entropy argument, and the whole output sequence of the returned
generator is identical across calls with the same seed. -/
theorem rs_random_deterministic :
    ∀ (s e1 e2 : Nat),
      (rs_random (some s) e1).2 = s ∧
      rs_random (some s) e1 = rs_random (some s) e2 ∧
      (rs_random (some s) e1).1 = seed_from_u64 s ∧
      ∀ n, Generator.outputs (rs_random (some s) e1).1 n =
        Generator.outputs (rs_random (some s) e2).1 n :=
  fun s e1 e2 => ⟨rfl, rfl, rfl, fun n => rfl⟩

/-- C8: seeding a Box replaces the generator wholesale with the one
rs_random derives from the new seed, independent of the prior generator
state, returns the resolved seed as a one-element list, and leaves every
other field unchanged. -/
theorem box_seed_replaces_generator_frame :
    ∀ (b : Box) (sd : Option Nat) (entropy : Nat),
      (Box.seed b sd entropy).1.rs_random = (rs_random sd entropy).1 ∧
      (Box.seed b sd entropy).2 = [(rs_random sd entropy).2] ∧
      (∀ b2 : Box, (Box.seed b sd entropy).1.rs_random =
        (Box.seed b2 sd entropy).1.rs_random) ∧
      (Box.seed b sd entropy).1.shape = b.shape ∧
      (Box.seed b sd entropy).1.dtype = b.dtype ∧
      (Box.seed b sd entropy).1.device = b.device ∧
      (Box.seed b sd entropy).1.low = b.low ∧
      (Box.seed b sd entropy).1.high = b.high ∧
      (Box.seed b sd entropy).1.low_repr = b.low_repr ∧
      (Box.seed b sd entropy).1.high_repr = b.high_repr ∧
      (Box.seed b sd entropy).1.bounded_below = b.bounded_below ∧
      (Box.seed b sd entropy).1.bounded_above = b.bounded_above := by
  intro b sd entropy
  cases b
  exact ⟨rfl, rfl, fun b2 => rfl, rfl, rfl, rfl, rfl, rfl, rfl, rfl, rfl, rfl⟩

/-- C10: with an explicit shape argument, Box::new never fails: no check
compares the explicit shape with the supplied buffers or the buffers
with each other, the bounds are stored after the identity clamp whatever
their shapes, and the resolved shape field records the explicit shape. -/
theorem box_new_explicit_shape_never_fails :
    ∀ (low high : Bound) (s : List Nat) (dtype : DType) (seed : Option Seed)
      (device : Option Device) (entropy : Nat),
      ∃ b, Box.new low high (some s) dtype seed device entropy = Except.ok b ∧
        b.shape = some s ∧
        b.low = _broadcast (materialize low s) ∧
        b.high = _broadcast (materialize high s) :=
  fun low high s dtype seed device entropy =>
    ⟨_, box_new_ok low high (some s) dtype seed device entropy s rfl, rfl, rfl, rfl⟩

end Gymnust
